import Mathlib

/-!
Verification of the vendor registration / login / token-auth service of the
Restaurant repository.  The controllers `vendorRegister` and `vendorLogin`
are embedded from `Episode_8_ Get Vendor Records API _Single Vendor Records
API/index.js`; the token middleware from the `auth` / `verifyToken` code in
the episode READMEs.  The bcrypt and jsonwebtoken libraries are not part of
the repository, so their primitives are modelled from the spec (salted
one-way hash with a cost factor; signed time-boxed token), keeping the
observable algebra the code relies on: a hash verifies against the plaintext
it was derived from, differs from it, and a token's signature and expiry are
checked at verification time.
-/

namespace Restaurant

/-- A Vendor document, from the `vendorSchema` in `models/Vendor.js`:
`userName`, `email` (unique) and `password` (stores the bcrypt hash). -/
structure Vendor where
  userName : String
  email : String
  password : String
deriving DecidableEq, Repr

/-- A JSON response body: either a bare JSON string (as produced by
`res.json("...")`) or a flat object with string fields (as produced by
`res.json({k: v})`). -/
inductive Body where
  | str : String → Body
  | obj : List (String × String) → Body
deriving DecidableEq, Repr

/-- Whether a response body is an object carrying field `k`. -/
def bodyHasField (b : Body) (k : String) : Bool :=
  match b with
  | .str _ => false
  | .obj fields => fields.any (fun kv => kv.1 == k)

/-- An HTTP response: status code plus JSON body. -/
structure Response where
  status : Nat
  body : Body
deriving DecidableEq, Repr

/-- Splits a character list at the first occurrence of the delimiter `d`,
returning the part before it and the part after it; `none` when `d` does
not occur. -/
def splitAtChar (d : Char) : List Char → Option (List Char × List Char)
  | [] => none
  | c :: cs =>
    if c = d then some ([], cs)
    else
      match splitAtChar d cs with
      | some (a, b) => some (c :: a, b)
      | none => none

/-- Modelled from the spec: `bcrypt.hash(plaintext, cost)` computes a salted
one-way hash with the given cost factor (the library is not part of the
repository source).  The random salt is made an explicit argument.  The
output keeps bcrypt's shape — a `$`-separated string starting with the
algorithm tag, then cost, salt, and digest — with cost and salt written in
unary over letters distinct from the separator, and the digest modelled as
an information-preserving image of the plaintext so that `bcryptCompare`
can re-derive and check it. -/
def bcryptHash (plaintext : String) (cost salt : Nat) : String :=
  ⟨'$' :: '2' :: 'b' :: '$' ::
    (List.replicate cost 'c' ++ '$' ::
      (List.replicate salt 'a' ++ '$' :: plaintext.data))⟩

/-- Modelled from the spec: `bcrypt.compare(plaintext, hash)` extracts cost
and salt from the stored hash, re-derives the digest from the candidate
plaintext, and compares. -/
def bcryptCompare (plaintext h : String) : Bool :=
  match h.data with
  | '$' :: '2' :: 'b' :: '$' :: rest =>
    match splitAtChar '$' rest with
    | some (_, rest2) =>
      match splitAtChar '$' rest2 with
      | some (_, candidate) => candidate == plaintext.data
      | none => false
    | none => false
  | _ => false

/-- The vendor store: the Vendor collection as a list of documents, in
insertion order.  `Vendor.findOne({email})` is `List.find?` on the email
field; `newVendor.save()` appends. -/
abbrev Store := List Vendor

/-- Embeds `vendorRegister` from
`Episode_8_ Get Vendor Records API _Single Vendor Records API/index.js`:
look up the email; if taken answer `400` with the bare string
`"Email already taken"`; otherwise hash the password with cost 10, save the
new vendor and answer `201 {message}`.  The bcrypt salt is an explicit
argument (the library draws it at random). -/
def vendorRegister (store : Store) (userName email password : String)
    (salt : Nat) : Response × Store :=
  match store.find? (fun v => v.email == email) with
  | some _ => ({ status := 400, body := .str "Email already taken" }, store)
  | none =>
    let hashedPassword := bcryptHash password 10 salt
    let newVendor : Vendor :=
      { userName := userName, email := email, password := hashedPassword }
    ({ status := 201,
       body := .obj [("message", "Vendor registered successfully")] },
     store ++ [newVendor])

/-- Embeds `vendorLogin` from the same file: look up the email; if no
vendor matches or the bcrypt comparison fails answer
`401 {error: "Invalid username or password"}`; otherwise answer
`200 {success: "Login successful"}`. -/
def vendorLogin (store : Store) (email password : String) :
    Response × Store :=
  match store.find? (fun v => v.email == email) with
  | none =>
    ({ status := 401, body := .obj [("error", "Invalid username or password")] },
     store)
  | some vendor =>
    if bcryptCompare password vendor.password then
      ({ status := 200, body := .obj [("success", "Login successful")] }, store)
    else
      ({ status := 401, body := .obj [("error", "Invalid username or password")] },
       store)

/-- Splitting at the delimiter recovers a replicated non-delimiter block
and the remainder. -/
theorem splitAtChar_replicate (d c : Char) (hc : c ≠ d) (n : Nat)
    (r : List Char) :
    splitAtChar d (List.replicate n c ++ d :: r) =
      some (List.replicate n c, r) := by
  induction n with
  | zero => simp [splitAtChar]
  | succ n ih => simp [List.replicate_succ, splitAtChar, hc, ih]

/-- A bcrypt hash verifies against the plaintext it was derived from. -/
theorem bcryptCompare_hash (p : String) (cost salt : Nat) :
    bcryptCompare p (bcryptHash p cost salt) = true := by
  have hc : ('c' : Char) ≠ '$' := by decide
  have ha : ('a' : Char) ≠ '$' := by decide
  simp [bcryptHash, bcryptCompare, splitAtChar_replicate _ _ hc,
    splitAtChar_replicate _ _ ha]

/-- A bcrypt hash is never the plaintext itself: the hash string strictly
extends the digest with the algorithm/cost/salt prefix. -/
theorem bcryptHash_ne (p : String) (cost salt : Nat) :
    bcryptHash p cost salt ≠ p := by
  intro h
  have hdata : (bcryptHash p cost salt).data = p.data := by rw [h]
  have hlen := congrArg List.length hdata
  simp [bcryptHash, List.length_append, List.length_replicate] at hlen
  omega

/-- A decoded JWT: the payload claims `{vendorId, exp}` together with the
signature, as produced by `jwt.sign({vendorId: ...}, secretKey,
{expiresIn: "1h"})` in `Episode_6_JW Token/README.md`. -/
structure Token where
  vendorId : String
  exp : Nat
  sig : Nat
deriving DecidableEq, Repr

/-- Modelled from the spec: the HMAC-SHA256 signature the jsonwebtoken
library computes over the payload with the secret key (the library is not
part of the repository source); modelled as a deterministic digest of
secret, subject and expiry. -/
def hmacSig (secret vendorId : String) (exp : Nat) : Nat :=
  (secret ++ "." ++ vendorId).data.foldl
    (fun a c => a * 256 + c.toNat) (exp + 1)

/-- Embeds `jwt.sign({vendorId: vendor._id}, secretKey, {expiresIn: "1h"})`:
the expiry is the issue time plus one hour (3600 seconds), and the payload
is signed with the secret. -/
def jwtSign (vendorId secret : String) (now : Nat) : Token :=
  { vendorId := vendorId
    exp := now + 3600
    sig := hmacSig secret vendorId (now + 3600) }

/-- Modelled from the spec: `jwt.verify(token, secretKey)` on a decoded
token checks the signature against the secret, then the expiry against the
current time (expired when `now ≥ exp`), and yields the subject claim. -/
def jwtVerify (t : Token) (secret : String) (now : Nat) : Option String :=
  if t.sig = hmacSig secret t.vendorId t.exp then
    if t.exp ≤ now then none else some t.vendorId
  else none

/-- Parses a decimal digit list into a Nat (wire decoding helper). -/
def parseNat (cs : List Char) : Nat :=
  cs.foldl (fun a c => a * 10 + (c.toNat - 48)) 0

/-- The wire form of a token: expiry, signature and subject as
dot-separated fields (compact stand-in for the three base64url JWT parts). -/
def tokenEncode (t : Token) : String :=
  ⟨(Nat.repr t.exp).data ++ '.' ::
    ((Nat.repr t.sig).data ++ '.' :: t.vendorId.data)⟩

/-- Decodes the wire form back into a token; fails on strings without the
dot-separated three-part shape (the format check of `jwt.verify`). -/
def tokenDecode (s : String) : Option Token :=
  match splitAtChar '.' s.data with
  | none => none
  | some (expChars, rest) =>
    match splitAtChar '.' rest with
    | none => none
    | some (sigChars, vidChars) =>
      some { vendorId := ⟨vidChars⟩
             exp := parseNat expChars
             sig := parseNat sigChars }

/-- `jwt.verify` on the wire string: decode (rejecting malformed input),
then check signature and expiry. -/
def jwtVerifyStr (s secret : String) (now : Nat) : Option String :=
  match tokenDecode s with
  | none => none
  | some t => jwtVerify t secret now

/-- The second space-separated field of a string, as computed by the
middleware's `authorization.split(" ")[1]` — `none` when the string has no
space. -/
def secondField (s : String) : Option String :=
  match splitAtChar ' ' s.data with
  | none => none
  | some (_, rest) =>
    match splitAtChar ' ' rest with
    | none => some ⟨rest⟩
    | some (b, _) => some ⟨b⟩

/-- The request as the middleware sees it: the `Authorization` header (if
presented) and the `req.vendorId` context slot it may attach. -/
structure AuthReq where
  authorization : Option String
  vendorId : Option String
deriving DecidableEq, Repr

/-- Outcome of the middleware: either an early rejection response, or
`next()` invoked with the (possibly updated) request. -/
inductive AuthResult where
  | rejected : Nat → Body → AuthResult
  | nextCalled : AuthReq → AuthResult
deriving DecidableEq, Repr

/-- Embeds the `auth` middleware of `Episode_6_JW Token/README.md`:
`const token = req.headers.authorization?.split(" ")[1]`; missing (or
falsy, i.e. empty) token answers `401 {error: "Token missing"}`; a failed
`jwt.verify` answers `403 {error: "Invalid token"}`; on success
`req.vendorId = decoded.vendorId` and `next()` is called. -/
def auth (secret : String) (now : Nat) (req : AuthReq) : AuthResult :=
  match req.authorization.bind secondField with
  | none => .rejected 401 (.obj [("error", "Token missing")])
  | some tok =>
    if tok = "" then .rejected 401 (.obj [("error", "Token missing")])
    else
      match jwtVerifyStr tok secret now with
      | none => .rejected 403 (.obj [("error", "Invalid token")])
      | some vid => .nextCalled { req with vendorId := some vid }

/-- A Firm document: identifier and name (referenced by vendors). -/
structure Firm where
  oid : String
  firmName : String
deriving DecidableEq, Repr

/-- A Vendor document as `getVendorById` sees it: identifier, profile
fields and the stored list of Firm references. -/
structure VendorDoc where
  oid : String
  userName : String
  email : String
  firm : List String
deriving DecidableEq, Repr

/-- Whether a character is a hexadecimal digit. -/
def isHexChar (c : Char) : Bool :=
  c.isDigit || (decide ('a' ≤ c) && decide (c ≤ 'f'))
    || (decide ('A' ≤ c) && decide (c ≤ 'F'))

/-- A well-formed MongoDB ObjectId: exactly 24 hexadecimal characters;
`findById` on anything else throws a CastError. -/
def isValidObjectId (s : String) : Bool :=
  s.data.length == 24 && s.data.all isHexChar

/-- Result of the single-vendor endpoint: the populated vendor, or an
error response (status plus message). -/
inductive VendorByIdResult where
  | ok : String → String → List Firm → VendorByIdResult
  | err : Nat → String → VendorByIdResult
deriving DecidableEq, Repr

/-- The `populate('firm')` step: each stored Firm reference is replaced by
the matching Firm document (dangling references are dropped). -/
def populateFirm (firms : List Firm) (refIds : List String) : List Firm :=
  refIds.filterMap (fun fid => firms.find? (fun f => f.oid == fid))

/-- Modelled from the spec: the `getVendorById` controller (its full body
is not under the repository source; the episode README documents
`Vendor.findById(vendorId).populate('firm')` with a 404 when the vendor
does not exist, everything else caught by the generic try/catch answering
500).  A malformed identifier makes `findById` throw a CastError, which
that generic catch turns into `500 "Internal server error"`. -/
def getVendorById (vendors : List VendorDoc) (firms : List Firm)
    (vendorId : String) : VendorByIdResult :=
  if isValidObjectId vendorId = false then
    .err 500 "Internal server error"
  else
    match vendors.find? (fun v => v.oid == vendorId) with
    | none => .err 404 "Vendor not found"
    | some v => .ok v.userName v.email (populateFirm firms v.firm)

/-- An operation against the vendor store (the write surface of the
vendor routes). -/
inductive Op where
  | register : String → String → String → Nat → Op
  | login : String → String → Op
deriving DecidableEq, Repr

/-- The store after one operation. -/
def applyOp (store : Store) : Op → Store
  | .register u e p salt => (vendorRegister store u e p salt).2
  | .login e p => (vendorLogin store e p).2

/-- The store reached from the empty collection by a sequence of
operations. -/
def runOps (ops : List Op) : Store :=
  ops.foldl applyOp []

/-- Email uniqueness across the store: no two Vendor records share an
email. -/
def emailsUnique (store : Store) : Prop :=
  store.Pairwise (fun a b => a.email ≠ b.email)

/-- `findOne({email})` finds nothing exactly when no stored vendor has the
email. -/
theorem find?_email_eq_none {store : Store} {e : String} :
    store.find? (fun v => v.email == e) = none ↔
      ∀ v ∈ store, v.email ≠ e := by
  simp [List.find?_eq_none]

/-- Login never writes: the store component of `vendorLogin` is the input
store in every branch. -/
theorem vendorLogin_store_eq (store : Store) (e p : String) :
    (vendorLogin store e p).2 = store := by
  cases hf : store.find? (fun v => v.email == e) with
  | none => simp [vendorLogin, hf]
  | some v =>
    by_cases hc : bcryptCompare p v.password = true
    · simp [vendorLogin, hf, hc]
    · simp [vendorLogin, hf, hc]

/-- One operation preserves email uniqueness: login never writes, and
register inserts only after `findOne({email})` came back empty. -/
theorem applyOp_emailsUnique {store : Store} (op : Op)
    (h : emailsUnique store) : emailsUnique (applyOp store op) := by
  cases op with
  | login e p => simpa [applyOp, vendorLogin_store_eq] using h
  | register u e p salt =>
    cases hf : store.find? (fun v => v.email == e) with
    | some v => simpa [applyOp, vendorRegister, hf] using h
    | none =>
      have hfresh : ∀ v ∈ store, v.email ≠ e :=
        find?_email_eq_none.mp hf
      simp only [applyOp, vendorRegister, hf]
      rw [emailsUnique, List.pairwise_append]
      refine ⟨h, by simp, ?_⟩
      intro a ha b hb
      simp only [List.mem_singleton] at hb
      subst hb
      simpa using hfresh a ha

/-- C1 (counterexample): with a vendor `e@x.com` already stored, a second
registration for `e@x.com` answers status 400 but its body is the bare
JSON string `"Email already taken"`, not an object of the shape
`{error: ...}` — the body carries no `error` field at all. -/
theorem register_duplicate_body_not_error_obj :
    (vendorRegister [⟨"u", "e@x.com", "h"⟩] "w" "e@x.com" "p" 0).1.status
        = 400 ∧
      (vendorRegister [⟨"u", "e@x.com", "h"⟩] "w" "e@x.com" "p" 0).1.body
        = .str "Email already taken" ∧
      bodyHasField
        (vendorRegister [⟨"u", "e@x.com", "h"⟩] "w" "e@x.com" "p" 0).1.body
        "error" = false := by
  decide

/-- Register contract, shared form: the duplicate branch answers 400 with
the bare duplicate-email string and writes nothing; the fresh branch
appends the cost-10 bcrypt-hashed Vendor and answers 201. -/
theorem vendorRegister_spec (store : Store) (u e p : String) (salt : Nat) :
    ((∃ v ∈ store, v.email = e) →
        (vendorRegister store u e p salt).1
            = ⟨400, .str "Email already taken"⟩ ∧
          (vendorRegister store u e p salt).2 = store) ∧
      ((∀ v ∈ store, v.email ≠ e) →
        (vendorRegister store u e p salt).1
            = ⟨201, .obj [("message", "Vendor registered successfully")]⟩ ∧
          (vendorRegister store u e p salt).2
            = store ++ [⟨u, e, bcryptHash p 10 salt⟩]) := by
  cases hf : store.find? (fun v => v.email == e) with
  | none =>
    refine ⟨?_, ?_⟩
    · rintro ⟨v, hv, hev⟩
      exact absurd hev (find?_email_eq_none.mp hf v hv)
    · intro _
      simp [vendorRegister, hf]
  | some v =>
    have hmem := List.mem_of_find?_eq_some hf
    have hprop : v.email = e := by
      simpa using List.find?_some hf
    refine ⟨?_, ?_⟩
    · intro _
      simp [vendorRegister, hf]
    · intro hall
      exact absurd hprop (hall v hmem)

/-- C1 (amended): if a Vendor with the given email already exists,
`vendorRegister` answers 400 with the bare-string duplicate-email body and
persists nothing; otherwise it hashes the password with bcrypt at fixed
cost 10 and appends the new Vendor, answering 201 with a success
message. -/
theorem register_contract (store : Store) (u e p : String) (salt : Nat) :
    ((∃ v ∈ store, v.email = e) →
        (vendorRegister store u e p salt).1
            = ⟨400, .str "Email already taken"⟩ ∧
          (vendorRegister store u e p salt).2 = store) ∧
      ((∀ v ∈ store, v.email ≠ e) →
        (vendorRegister store u e p salt).1
            = ⟨201, .obj [("message", "Vendor registered successfully")]⟩ ∧
          (vendorRegister store u e p salt).2
            = store ++ [⟨u, e, bcryptHash p 10 salt⟩]) :=
  vendorRegister_spec store u e p salt

/-- C1 witness: the fresh-email branch of `register_contract` at a
concrete input. -/
theorem register_contract_witness :
    (vendorRegister [] "u" "e@x.com" "pw" 3).1
        = ⟨201, .obj [("message", "Vendor registered successfully")]⟩ ∧
      (vendorRegister [] "u" "e@x.com" "pw" 3).2
        = [⟨"u", "e@x.com", bcryptHash "pw" 10 3⟩] := by
  have h := (register_contract [] "u" "e@x.com" "pw" 3).2 (by simp)
  simpa using h

/-- C2: on any store holding exactly one Vendor with email `e`, a second
registration for `e` answers the 400 duplicate-email error, leaves the
store unchanged, and the count of vendors with email `e` is still one. -/
theorem register_duplicate_unchanged (store : Store) (u e p : String)
    (salt : Nat)
    (hcount : store.countP (fun v => v.email == e) = 1) :
    (vendorRegister store u e p salt).1
        = ⟨400, .str "Email already taken"⟩ ∧
      (vendorRegister store u e p salt).2 = store ∧
      (vendorRegister store u e p salt).2.countP (fun v => v.email == e)
        = 1 := by
  have hpos : 0 < store.countP (fun v => v.email == e) := by omega
  obtain ⟨v, hv, hev⟩ := List.countP_pos_iff.mp hpos
  have hev' : v.email = e := by simpa using hev
  obtain ⟨h400, hstore⟩ :=
    (vendorRegister_spec store u e p salt).1 ⟨v, hv, hev'⟩
  exact ⟨h400, hstore, by rw [hstore]; exact hcount⟩

/-- C2 witness: duplicate registration on a concrete one-vendor store. -/
theorem register_duplicate_unchanged_witness :
    (vendorRegister [⟨"u", "a@b.c", "h"⟩] "w" "a@b.c" "p" 0).1
        = ⟨400, .str "Email already taken"⟩ ∧
      (vendorRegister [⟨"u", "a@b.c", "h"⟩] "w" "a@b.c" "p" 0).2
        = [⟨"u", "a@b.c", "h"⟩] ∧
      ((vendorRegister [⟨"u", "a@b.c", "h"⟩] "w" "a@b.c" "p" 0).2.countP
          (fun v => v.email == "a@b.c")) = 1 :=
  register_duplicate_unchanged [⟨"u", "a@b.c", "h"⟩] "w" "a@b.c" "p" 0
    (by decide)

/-- C3: a login with an unknown email and a login with a known email but a
failing bcrypt comparison produce the same response — status 401 with the
identical undifferentiated invalid-credentials body. -/
theorem login_nonleak (store : Store) (e1 p1 e2 p2 : String) (v : Vendor)
    (h1 : store.find? (fun w => w.email == e1) = none)
    (h2 : store.find? (fun w => w.email == e2) = some v)
    (h3 : bcryptCompare p2 v.password = false) :
    (vendorLogin store e1 p1).1 = (vendorLogin store e2 p2).1 ∧
      (vendorLogin store e1 p1).1
        = ⟨401, .obj [("error", "Invalid username or password")]⟩ := by
  constructor
  · simp [vendorLogin, h1, h2, h3]
  · simp [vendorLogin, h1]

/-- C3 witness: on a concrete store, an unknown-email login and a
wrong-password login yield the identical 401 response. -/
theorem login_nonleak_witness :
    (vendorLogin [⟨"u", "a@b.c", bcryptHash "pw" 10 2⟩] "z@z.z" "pw").1
        = (vendorLogin [⟨"u", "a@b.c", bcryptHash "pw" 10 2⟩] "a@b.c"
            "wrong").1 ∧
      (vendorLogin [⟨"u", "a@b.c", bcryptHash "pw" 10 2⟩] "z@z.z" "pw").1
        = ⟨401, .obj [("error", "Invalid username or password")]⟩ :=
  login_nonleak [⟨"u", "a@b.c", bcryptHash "pw" 10 2⟩] "z@z.z" "pw"
    "a@b.c" "wrong" ⟨"u", "a@b.c", bcryptHash "pw" 10 2⟩
    (by decide) (by decide) (by decide)

/-- C4: a token issued for subject `X` at time `t0` verifies to `X` at any
time strictly before its expiry `t0 + 3600`, and is rejected at any time
strictly after that expiry. -/
theorem token_roundtrip (X secret : String) (t0 t1 t2 : Nat)
    (h1 : t1 < t0 + 3600) (h2 : t0 + 3600 < t2) :
    jwtVerify (jwtSign X secret t0) secret t1 = some X ∧
      jwtVerify (jwtSign X secret t0) secret t2 = none := by
  constructor
  · simp [jwtSign, jwtVerify]
    omega
  · simp [jwtSign, jwtVerify]
    omega

/-- C4 witness: a concrete token verified before and after expiry. -/
theorem token_roundtrip_witness :
    (10 : Nat) < 0 + 3600 ∧ (0 : Nat) + 3600 < 5000 ∧
      jwtVerify (jwtSign "v1" "sec" 0) "sec" 10 = some "v1" ∧
      jwtVerify (jwtSign "v1" "sec" 0) "sec" 5000 = none := by
  obtain ⟨ha, hb⟩ :=
    token_roundtrip "v1" "sec" 0 10 5000 (by decide) (by decide)
  exact ⟨by decide, by decide, ha, hb⟩

/-- C5: the middleware rejects with `401 {error: "Token missing"}` when no
Authorization header is presented, rejects with
`403 {error: "Invalid token"}` when the presented token fails the
signature/format check, and on success attaches the decoded `vendorId` to
the request before calling `next()`. -/
theorem auth_middleware (secret : String) (now : Nat) (req : AuthReq) :
    (req.authorization = none →
        auth secret now req
          = .rejected 401 (.obj [("error", "Token missing")])) ∧
      (∀ a tok, req.authorization = some a → secondField a = some tok →
        tok ≠ "" → jwtVerifyStr tok secret now = none →
        auth secret now req
          = .rejected 403 (.obj [("error", "Invalid token")])) ∧
      (∀ a tok vid, req.authorization = some a → secondField a = some tok →
        tok ≠ "" → jwtVerifyStr tok secret now = some vid →
        auth secret now req
          = .nextCalled { req with vendorId := some vid }) := by
  refine ⟨?_, ?_, ?_⟩
  · intro h
    simp [auth, h]
  · intro a tok ha htok hne hver
    simp [auth, ha, htok, hne, hver]
  · intro a tok vid ha htok hne hver
    simp [auth, ha, htok, hne, hver]

/-- C5 witness: all three middleware branches at concrete requests — no
header, a malformed bearer token, and a freshly signed valid token. -/
theorem auth_middleware_witness :
    auth "sec" 5 ⟨none, none⟩
        = .rejected 401 (.obj [("error", "Token missing")]) ∧
      auth "sec" 5 ⟨some "Bearer garbage", none⟩
        = .rejected 403 (.obj [("error", "Invalid token")]) ∧
      auth "sec" 5
          ⟨some ("Bearer " ++ tokenEncode (jwtSign "v9" "sec" 0)), none⟩
        = .nextCalled
            ⟨some ("Bearer " ++ tokenEncode (jwtSign "v9" "sec" 0)),
              some "v9"⟩ := by
  refine ⟨?_, ?_, ?_⟩
  · exact (auth_middleware "sec" 5 ⟨none, none⟩).1 rfl
  · exact (auth_middleware "sec" 5 ⟨some "Bearer garbage", none⟩).2.1
      "Bearer garbage" "garbage" rfl (by decide) (by decide) (by decide)
  · exact (auth_middleware "sec" 5
        ⟨some ("Bearer " ++ tokenEncode (jwtSign "v9" "sec" 0)), none⟩).2.2
      ("Bearer " ++ tokenEncode (jwtSign "v9" "sec" 0))
      (tokenEncode (jwtSign "v9" "sec" 0)) "v9"
      rfl (by decide) (by decide) (by decide)

/-- C6: registering a fresh email with plaintext `p` appends a Vendor
whose stored password field verifies against `p` under bcrypt comparison
and is never `p` itself. -/
theorem register_stores_hash (store : Store) (u e p : String) (salt : Nat)
    (h : ∀ v ∈ store, v.email ≠ e) :
    ∃ v : Vendor,
      (vendorRegister store u e p salt).2 = store ++ [v] ∧
        v.email = e ∧
        bcryptCompare p v.password = true ∧
        v.password ≠ p := by
  obtain ⟨-, hstore⟩ := (vendorRegister_spec store u e p salt).2 h
  exact ⟨⟨u, e, bcryptHash p 10 salt⟩, hstore, rfl,
    bcryptCompare_hash p 10 salt, bcryptHash_ne p 10 salt⟩

/-- C6 witness: a concrete fresh registration whose stored hash verifies
against the plaintext and differs from it. -/
theorem register_stores_hash_witness :
    ∃ v : Vendor,
      (vendorRegister [] "u" "e@x.com" "pw" 3).2 = [] ++ [v] ∧
        v.email = "e@x.com" ∧
        bcryptCompare "pw" v.password = true ∧
        v.password ≠ "pw" :=
  register_stores_hash [] "u" "e@x.com" "pw" 3 (by simp)

/-- C8: email uniqueness is an invariant of every store reachable from the
empty collection by register/login operations — no two Vendor records ever
share an email. -/
theorem emailsUnique_invariant (ops : List Op) :
    emailsUnique (runOps ops) := by
  suffices h : ∀ (l : List Op) (s : Store),
      emailsUnique s → emailsUnique (l.foldl applyOp s) by
    exact h ops [] (by simp [emailsUnique])
  intro l
  induction l with
  | nil => intro s hs; simpa using hs
  | cons op l ih =>
    intro s hs
    exact ih (applyOp s op) (applyOp_emailsUnique op hs)

/-- C9: a login with correct credentials answers 200 with the generic
success body, and no `token` field appears anywhere in that response. -/
theorem login_success_no_token (store : Store) (e p : String) (v : Vendor)
    (hf : store.find? (fun w => w.email == e) = some v)
    (hc : bcryptCompare p v.password = true) :
    (vendorLogin store e p).1.status = 200 ∧
      (vendorLogin store e p).1.body
        = .obj [("success", "Login successful")] ∧
      bodyHasField (vendorLogin store e p).1.body "token" = false := by
  refine ⟨?_, ?_, ?_⟩ <;> simp [vendorLogin, hf, hc, bodyHasField]

/-- C9 witness: a concrete successful login whose response carries no
token. -/
theorem login_success_no_token_witness :
    (vendorLogin [⟨"u", "a@b.c", bcryptHash "pw" 10 2⟩] "a@b.c" "pw").1.status
        = 200 ∧
      (vendorLogin [⟨"u", "a@b.c", bcryptHash "pw" 10 2⟩] "a@b.c" "pw").1.body
        = .obj [("success", "Login successful")] ∧
      bodyHasField
        (vendorLogin [⟨"u", "a@b.c", bcryptHash "pw" 10 2⟩] "a@b.c" "pw").1.body
        "token" = false :=
  login_success_no_token [⟨"u", "a@b.c", bcryptHash "pw" 10 2⟩] "a@b.c" "pw"
    ⟨"u", "a@b.c", bcryptHash "pw" 10 2⟩ (by decide) (by decide)

/-- C10: login is read-only — in every outcome the vendor store after
`vendorLogin` is exactly the store before it. -/
theorem login_readonly (store : Store) (e p : String) :
    (vendorLogin store e p).2 = store :=
  vendorLogin_store_eq store e p

/-- C7 (counterexample): on a malformed identifier, `getVendorById` does
not fail with a distinguished invalid-id error — it answers the generic
`500 "Internal server error"`, the same response as any internal failure,
even though a matching vendor could never exist for that identifier. -/
theorem getVendorById_invalid_is_500 :
    isValidObjectId "not-an-objectid" = false ∧
      getVendorById [⟨"655f1a2b3c4d5e6f7a8b9c0d", "u", "e@x.com", []⟩] []
          "not-an-objectid"
        = .err 500 "Internal server error" := by
  decide

/-- C7 (amended): `getVendorById` answers the vendor with its Firm
references resolved to Firm documents when the identifier matches a
record, `404 "Vendor not found"` when no record matches, and — the
identifier being malformed — surfaces the CastError as the generic
`500 "Internal server error"` rather than a distinct invalid-id error. -/
theorem getVendorById_contract (vendors : List VendorDoc)
    (firms : List Firm) (vid : String) :
    (isValidObjectId vid = false →
        getVendorById vendors firms vid
          = .err 500 "Internal server error") ∧
      (isValidObjectId vid = true →
        vendors.find? (fun v => v.oid == vid) = none →
        getVendorById vendors firms vid = .err 404 "Vendor not found") ∧
      (∀ v, isValidObjectId vid = true →
        vendors.find? (fun w => w.oid == vid) = some v →
        getVendorById vendors firms vid
          = .ok v.userName v.email (populateFirm firms v.firm)) := by
  refine ⟨?_, ?_, ?_⟩
  · intro h
    simp [getVendorById, h]
  · intro h hf
    simp [getVendorById, h, hf]
  · intro v h hf
    simp [getVendorById, h, hf]

/-- C7 witness: a found vendor with its firm reference resolved, and a
valid-but-absent identifier answering 404. -/
theorem getVendorById_contract_witness :
    getVendorById
        [⟨"655f1a2b3c4d5e6f7a8b9c0d", "u", "e@x.com",
          ["655f1a2b3c4d5e6f7a8b9c0e"]⟩]
        [⟨"655f1a2b3c4d5e6f7a8b9c0e", "RameshFoods"⟩]
        "655f1a2b3c4d5e6f7a8b9c0d"
      = .ok "u" "e@x.com" [⟨"655f1a2b3c4d5e6f7a8b9c0e", "RameshFoods"⟩] ∧
      getVendorById
        [⟨"655f1a2b3c4d5e6f7a8b9c0d", "u", "e@x.com", []⟩] []
        "655f1a2b3c4d5e6f7a8b9c0f"
      = .err 404 "Vendor not found" := by
  constructor
  · exact (getVendorById_contract
        [⟨"655f1a2b3c4d5e6f7a8b9c0d", "u", "e@x.com",
          ["655f1a2b3c4d5e6f7a8b9c0e"]⟩]
        [⟨"655f1a2b3c4d5e6f7a8b9c0e", "RameshFoods"⟩]
        "655f1a2b3c4d5e6f7a8b9c0d").2.2
      ⟨"655f1a2b3c4d5e6f7a8b9c0d", "u", "e@x.com",
        ["655f1a2b3c4d5e6f7a8b9c0e"]⟩
      (by decide) (by decide)
  · exact (getVendorById_contract
        [⟨"655f1a2b3c4d5e6f7a8b9c0d", "u", "e@x.com", []⟩] []
        "655f1a2b3c4d5e6f7a8b9c0f").2.1 (by decide) (by decide)

end Restaurant
